import Mathlib

/-!
Verification development for the shader-identity and deduplication layer of
`src/d3d11/d3d11_shader.h` (dxvk-remix).

The header declares four components:
- `D3D11ShaderKey`   — the shader identity: program type plus SHA-1 digest;
- `D3D11CommonShader` — the compiled shader record (name, shader, icb buffer);
- `D3D11Shader<I11,I10>` — the dual-interface front object with `QueryInterface`;
- `D3D11ShaderModuleSet` — the mutex-protected cache `GetShaderModule`.

Code that is inline in the header (`operator==`, `QueryInterface`, the record
accessors, the six template instantiations, `D3D11ShaderKeyHash`) is embedded
directly from the source.  Member functions only declared in the header
(`D3D11ShaderKey::GetName`, `D3D11ShaderKey::GetHash`, the key constructor's
SHA-1 computation, and the body of `D3D11ShaderModuleSet::GetShaderModule`)
have their definitions out of this tree; those are modelled from the spec and
are marked as such in their doc comments.
-/

/-- The DXBC program type: the six pipeline stages, as in `DxbcProgramType`
(referenced by `d3d11_shader.h`; the enum lives in the dxbc module). -/
inductive DxbcProgramType where
  | VertexShader
  | HullShader
  | DomainShader
  | GeometryShader
  | PixelShader
  | ComputeShader
  deriving DecidableEq, Repr, Fintype

/-- Numeric value of a program type, used when combining it into a scalar. -/
def DxbcProgramType.toNat : DxbcProgramType → Nat
  | .VertexShader => 0
  | .HullShader => 1
  | .DomainShader => 2
  | .GeometryShader => 3
  | .PixelShader => 4
  | .ComputeShader => 5

/-- A SHA-1 digest value: a 160-bit content fingerprint of the bytecode.
The digest is modelled as its natural-number value (below `2 ^ 160` whenever
it was produced by the digest function). -/
structure Sha1Hash where
  digest : Nat
  deriving DecidableEq, Repr

/-- Modelled from the spec: the SHA-1 computation (`src/util/sha1`) is not in
this tree.  The spec requires only that the digest is computed
"deterministically over exactly the bytecode bytes" and is a 160-bit value;
we model it as a deterministic fold over the byte list into `Nat % 2 ^ 160`. -/
def sha1Model (bytes : List Nat) : Nat :=
  bytes.foldl (fun h b => (h * 257 + b % 256 + 1) % 2 ^ 160) 0

/-- The shader key (`D3D11ShaderKey`): program type plus SHA-1 hash of the
original bytecode. -/
structure D3D11ShaderKey where
  m_type : DxbcProgramType
  m_hash : Sha1Hash
  deriving DecidableEq, Repr

/-- The `D3D11ShaderKey` constructor: computes the identity from
`(ProgramType, pShaderBytecode, BytecodeLength)`.  The byte list stands for
exactly the `BytecodeLength` bytes at `pShaderBytecode`.  The digest is
computed over the bytecode bytes only; the stage is stored alongside. -/
def computeShaderKey (programType : DxbcProgramType) (bytecode : List Nat) :
    D3D11ShaderKey :=
  { m_type := programType, m_hash := { digest := sha1Model bytecode } }

/-- `D3D11ShaderKey::operator==`: field-wise comparison
`m_type == other.m_type && m_hash == other.m_hash`. -/
def D3D11ShaderKey.keyEq (a b : D3D11ShaderKey) : Bool :=
  (a.m_type == b.m_type) && (a.m_hash == b.m_hash)

/-- Modelled from the spec: the body of `D3D11ShaderKey::GetHash` is not in
this tree.  The spec requires a scalar that "combines stageKind and digest",
is stable for equal identities, and keeps distinct stages in distinct buckets
even for identical digests; we combine the 160-bit digest with the 3-bit
stage value into one scalar. -/
def D3D11ShaderKey.GetHash (k : D3D11ShaderKey) : Nat :=
  k.m_hash.digest * 8 + k.m_type.toNat

/-- `D3D11ShaderKeyHash`: the hash functor handed to the unordered map; its
`operator()` returns `a.GetHash()`. -/
def D3D11ShaderKeyHash (a : D3D11ShaderKey) : Nat :=
  a.GetHash

/-- Hexadecimal digit character for a value below 16 (lowercase letters). -/
def hexChar (n : Nat) : Char :=
  if n < 10 then Char.ofNat (48 + n) else Char.ofNat (87 + n)

/-- Fixed-width big-endian hexadecimal rendering of a natural number. -/
def toHexFixed (width n : Nat) : String :=
  String.mk ((List.range width).map (fun i => hexChar (n / 16 ^ (width - 1 - i) % 16)))

/-- The stage tag used in shader names, one two-character tag per stage. -/
def stageTag : DxbcProgramType → String
  | .VertexShader => "vs"
  | .HullShader => "hs"
  | .DomainShader => "ds"
  | .GeometryShader => "gs"
  | .PixelShader => "ps"
  | .ComputeShader => "cs"

/-- Modelled from the spec: the body of `D3D11ShaderKey::GetName` is not in
this tree.  The spec says it "produces a string combining a stage tag and the
digest rendered as hexadecimal", deterministic given the identity. -/
def D3D11ShaderKey.GetName (k : D3D11ShaderKey) : String :=
  stageTag k.m_type ++ "_" ++ toHexFixed 40 k.m_hash.digest

/-- Interface identifiers (`REFIID` values) that occur in `d3d11_shader.h`:
the base `IUnknown`, the two device-child interfaces of the two generations,
the six D3D11 shader interfaces, the three stage-specific D3D10 shader
interfaces, and arbitrary other GUIDs. -/
inductive IID where
  | IUnknown
  | ID3D11DeviceChild
  | ID3D10DeviceChild
  | ID3D11VertexShader
  | ID3D11HullShader
  | ID3D11DomainShader
  | ID3D11GeometryShader
  | ID3D11PixelShader
  | ID3D11ComputeShader
  | ID3D10VertexShader
  | ID3D10GeometryShader
  | ID3D10PixelShader
  | otherIID (n : Nat)
  deriving DecidableEq, Repr

/-- The reference stored through `ppvObject` by `QueryInterface`: null, a
reference to the front object itself (`ref(this)`), or a reference to the
embedded D3D10 adapter (`ref(&m_d3d10)`). -/
inductive QIRef where
  | nullRef
  | refSelf
  | refD3D10
  deriving DecidableEq, Repr

/-- The two HRESULT values `QueryInterface` can return. -/
inductive HResult where
  | S_OK
  | E_NOINTERFACE
  deriving DecidableEq, Repr

/-- Outcome of a `QueryInterface` call: the reference written to
`*ppvObject`, the returned HRESULT, and whether `Logger::warn` ran. -/
structure QIOutcome where
  ppvObject : QIRef
  hresult : HResult
  warned : Bool
  deriving DecidableEq, Repr

/-- `D3D11Shader<D3D11Interface, D3D10Interface>::QueryInterface` from the
header: `*ppvObject` is first set to null; the first branch matches
`IUnknown`, `ID3D11DeviceChild` or the current-generation interface and
returns `ref(this)` with `S_OK`; the second branch matches `IUnknown`,
`ID3D10DeviceChild` or the legacy interface and returns `ref(&m_d3d10)` with
`S_OK`; otherwise a warning is logged and `E_NOINTERFACE` returned with
`*ppvObject` still null.  `d3d11Interface` and `d3d10Interface` are the
template parameters. -/
def QueryInterface (d3d11Interface d3d10Interface riid : IID) : QIOutcome :=
  if riid = IID.IUnknown ∨ riid = IID.ID3D11DeviceChild ∨ riid = d3d11Interface then
    { ppvObject := QIRef.refSelf, hresult := HResult.S_OK, warned := false }
  else if riid = IID.IUnknown ∨ riid = IID.ID3D10DeviceChild ∨ riid = d3d10Interface then
    { ppvObject := QIRef.refD3D10, hresult := HResult.S_OK, warned := false }
  else
    { ppvObject := QIRef.nullRef, hresult := HResult.E_NOINTERFACE, warned := true }

/-- The six stage-specific instantiations of `D3D11Shader` from the header,
as (stage, D3D11Interface, D3D10Interface) triples in source order:
`D3D11VertexShader`, `D3D11HullShader`, `D3D11DomainShader`,
`D3D11GeometryShader`, `D3D11PixelShader`, `D3D11ComputeShader`. -/
def shaderInstantiations : List (DxbcProgramType × IID × IID) :=
  [ (DxbcProgramType.VertexShader,   IID.ID3D11VertexShader,   IID.ID3D10VertexShader),
    (DxbcProgramType.HullShader,     IID.ID3D11HullShader,     IID.ID3D10DeviceChild),
    (DxbcProgramType.DomainShader,   IID.ID3D11DomainShader,   IID.ID3D10DeviceChild),
    (DxbcProgramType.GeometryShader, IID.ID3D11GeometryShader, IID.ID3D10GeometryShader),
    (DxbcProgramType.PixelShader,    IID.ID3D11PixelShader,    IID.ID3D10PixelShader),
    (DxbcProgramType.ComputeShader,  IID.ID3D11ComputeShader,  IID.ID3D10DeviceChild) ]

/-- The common shader object (`D3D11CommonShader`): display name, compiled
shader handle (`Rc<DxvkShader>`) and optional initializer constant buffer
handle (`Rc<DxvkBuffer>`).  Reference-counted handles are modelled as
numeric identities of the underlying objects; `none` is a null `Rc`. -/
structure D3D11CommonShader where
  m_name : String
  m_shader : Option Nat
  m_buffer : Option Nat
  deriving DecidableEq, Repr

/-- The default constructor `D3D11CommonShader()`: the empty state with no
shader, no buffer and an empty name. -/
def D3D11CommonShader.empty : D3D11CommonShader :=
  { m_name := "", m_shader := none, m_buffer := none }

/-- `D3D11CommonShader::GetShader`: returns `m_shader`. -/
def D3D11CommonShader.GetShader (s : D3D11CommonShader) : Option Nat :=
  s.m_shader

/-- `D3D11CommonShader::GetIcb`: returns `m_buffer`. -/
def D3D11CommonShader.GetIcb (s : D3D11CommonShader) : Option Nat :=
  s.m_buffer

/-- `D3D11CommonShader::GetName`: returns `m_name`. -/
def D3D11CommonShader.GetName (s : D3D11CommonShader) : String :=
  s.m_name

/-- Lookup in the cache's map, using the key's `operator==` the way the
unordered map compares keys within a bucket. -/
def lookupEntry (entries : List (D3D11ShaderKey × D3D11CommonShader))
    (k : D3D11ShaderKey) : Option D3D11CommonShader :=
  match entries with
  | [] => none
  | (k0, r0) :: rest => if k0.keyEq k then some r0 else lookupEntry rest k

/-- What the external Compiler collaborator would do for one translation
request: succeed (producing a program handle, and an initializer-constant
buffer handle when the bytecode embeds constant data) or fail.  The outcome
is an input of each call, so different calls may behave differently. -/
inductive CompileOutcome where
  | success (hasIcb : Bool)
  | failure
  deriving DecidableEq, Repr

/-- One `GetShaderModule` request: the stage, the bytecode bytes and the
Compiler collaborator's behaviour should it be invoked for this call.
The device and module-info arguments do not influence the identity or the
cache decision and are omitted. -/
structure ShaderRequest where
  programType : DxbcProgramType
  bytecode : List Nat
  outcome : CompileOutcome
  deriving DecidableEq, Repr

/-- State of a `D3D11ShaderModuleSet` together with its environment:
`m_modules` is the set's map (association list, unique keys);
`nextHandle` instruments allocation of fresh compiled objects, so that two
handles are equal exactly when they refer to the same underlying object;
`compileLog` instruments the Compiler collaborator, recording the identity
of every invocation made so far. -/
structure ShaderCacheState where
  m_modules : List (D3D11ShaderKey × D3D11CommonShader)
  nextHandle : Nat
  compileLog : List D3D11ShaderKey
  deriving DecidableEq, Repr

/-- A fresh, empty `D3D11ShaderModuleSet` with no Compiler invocations. -/
def ShaderCacheState.init : ShaderCacheState :=
  { m_modules := [], nextHandle := 0, compileLog := [] }

/-- The record built by invoking the Compiler on a cache miss: name derived
from the identity, a fresh program handle, and a fresh buffer handle exactly
when the bytecode embeds constant data. -/
def compiledRecord (key : D3D11ShaderKey) (handleBase : Nat) (hasIcb : Bool) :
    D3D11CommonShader :=
  { m_name := key.GetName
    m_shader := some handleBase
    m_buffer := if hasIcb then some (handleBase + 1) else none }

/-- Modelled from the spec: the body of `D3D11ShaderModuleSet::GetShaderModule`
is not in this tree.  Following spec section 4.3, the whole
lookup-or-insert-and-compile sequence runs inside one exclusive section, so a
call is one atomic step on the state: (1) compute the `D3D11ShaderKey` from
(stage, bytecode); (2-3) under the mutex, if the identity is present return a
copy of the stored record; (4) if absent, invoke the Compiler — on failure
propagate the `CompilationFailure` and store nothing, on success insert the
new record under the identity and return a copy. -/
def GetShaderModule (st : ShaderCacheState) (req : ShaderRequest) :
    Except Unit D3D11CommonShader × ShaderCacheState :=
  let key := computeShaderKey req.programType req.bytecode
  match lookupEntry st.m_modules key with
  | some record => (Except.ok record, st)
  | none =>
    match req.outcome with
    | CompileOutcome.failure =>
        (Except.error (), { st with compileLog := st.compileLog ++ [key] })
    | CompileOutcome.success hasIcb =>
        let record := compiledRecord key st.nextHandle hasIcb
        (Except.ok record,
          { m_modules := (key, record) :: st.m_modules
            nextHandle := st.nextHandle + 2
            compileLog := st.compileLog ++ [key] })

/-- Run a sequence of `GetShaderModule` calls.  The cache serializes the
whole lookup-or-insert-and-compile sequence behind one mutex, so any
concurrent execution is observationally some sequential order of the calls;
a list of requests stands for one such order. -/
def runRequests (st : ShaderCacheState) (reqs : List ShaderRequest) :
    List (Except Unit D3D11CommonShader) × ShaderCacheState :=
  match reqs with
  | [] => ([], st)
  | req :: rest =>
      let (res, st1) := GetShaderModule st req
      let (results, st2) := runRequests st1 rest
      (res :: results, st2)

/-! ### Helper lemmas -/

theorem DxbcProgramType.toNat_inj :
    ∀ a b : DxbcProgramType, a.toNat = b.toNat → a = b := by decide

theorem DxbcProgramType.toNat_lt_eight : ∀ a : DxbcProgramType, a.toNat < 8 := by
  decide

theorem Sha1Hash.eq_of_digest_eq {a b : Sha1Hash} (h : a.digest = b.digest) :
    a = b := by
  cases a
  cases b
  cases h
  rfl

theorem D3D11ShaderKey.keyEq_iff (a b : D3D11ShaderKey) :
    a.keyEq b = true ↔ a = b := by
  cases a
  cases b
  simp [D3D11ShaderKey.keyEq, D3D11ShaderKey.mk.injEq]

theorem D3D11ShaderKey.keyEq_refl (a : D3D11ShaderKey) : a.keyEq a = true :=
  (D3D11ShaderKey.keyEq_iff a a).mpr rfl

theorem hexChar_inj : ∀ a < 16, ∀ b < 16, hexChar a = hexChar b → a = b := by
  decide

theorem hexDigits_inj :
    ∀ w n m : Nat, n < 16 ^ w → m < 16 ^ w →
      (∀ i < w, n / 16 ^ i % 16 = m / 16 ^ i % 16) → n = m := by
  intro w
  induction w with
  | zero =>
    intro n m hn hm _
    simp only [pow_zero, Nat.lt_one_iff] at hn hm
    rw [hn, hm]
  | succ w ih =>
    intro n m hn hm hd
    have h0 : n % 16 = m % 16 := by
      have := hd 0 (Nat.succ_pos w)
      simpa using this
    have hq : n / 16 = m / 16 := by
      apply ih
      · exact Nat.div_lt_of_lt_mul (by rw [← pow_succ'] ; exact hn)
      · exact Nat.div_lt_of_lt_mul (by rw [← pow_succ'] ; exact hm)
      · intro i hi
        have := hd (i + 1) (by omega)
        rw [pow_succ'] at this
        simp only [← Nat.div_div_eq_div_mul] at this
        exact this
    omega

theorem toHexFixed_inj {w n m : Nat} (hn : n < 16 ^ w) (hm : m < 16 ^ w)
    (h : toHexFixed w n = toHexFixed w m) : n = m := by
  apply hexDigits_inj w n m hn hm
  intro i hi
  have hlist : (List.range w).map (fun j => hexChar (n / 16 ^ (w - 1 - j) % 16)) =
      (List.range w).map (fun j => hexChar (m / 16 ^ (w - 1 - j) % 16)) := by
    simpa [toHexFixed, String.ext_iff] using h
  rw [List.map_eq_map_iff] at hlist
  have hj : w - 1 - i ∈ List.range w := by
    rw [List.mem_range]
    omega
  have hchar := hlist (w - 1 - i) hj
  have hidx : w - 1 - (w - 1 - i) = i := by omega
  rw [hidx] at hchar
  exact hexChar_inj _ (Nat.mod_lt _ (by omega)) _ (Nat.mod_lt _ (by omega)) hchar

theorem stageTag_length : ∀ t : DxbcProgramType, (stageTag t).data.length = 2 := by
  decide

theorem getShaderModule_hit (st : ShaderCacheState) (q : ShaderRequest)
    (r : D3D11CommonShader)
    (hlook : lookupEntry st.m_modules (computeShaderKey q.programType q.bytecode) = some r) :
    GetShaderModule st q = (Except.ok r, st) := by
  simp [GetShaderModule, hlook]

theorem getShaderModule_miss_success (st : ShaderCacheState) (q : ShaderRequest)
    (b : Bool) (hout : q.outcome = CompileOutcome.success b)
    (habs : lookupEntry st.m_modules (computeShaderKey q.programType q.bytecode) = none) :
    GetShaderModule st q =
      (Except.ok (compiledRecord (computeShaderKey q.programType q.bytecode) st.nextHandle b),
       { m_modules := (computeShaderKey q.programType q.bytecode,
           compiledRecord (computeShaderKey q.programType q.bytecode) st.nextHandle b) ::
             st.m_modules
         nextHandle := st.nextHandle + 2
         compileLog := st.compileLog ++ [computeShaderKey q.programType q.bytecode] }) := by
  simp [GetShaderModule, habs, hout]

theorem getShaderModule_miss_failure (st : ShaderCacheState) (q : ShaderRequest)
    (hout : q.outcome = CompileOutcome.failure)
    (habs : lookupEntry st.m_modules (computeShaderKey q.programType q.bytecode) = none) :
    GetShaderModule st q =
      (Except.error (),
       { st with compileLog := st.compileLog ++ [computeShaderKey q.programType q.bytecode] }) := by
  simp [GetShaderModule, habs, hout]

theorem runRequests_all_hits (key : D3D11ShaderKey) (r : D3D11CommonShader)
    (st : ShaderCacheState)
    (hlook : lookupEntry st.m_modules key = some r)
    (reqs : List ShaderRequest)
    (hsame : ∀ q ∈ reqs, computeShaderKey q.programType q.bytecode = key) :
    runRequests st reqs = (reqs.map (fun _ => Except.ok r), st) := by
  induction reqs with
  | nil => rfl
  | cons q rest ih =>
    have hk : computeShaderKey q.programType q.bytecode = key := hsame q (by simp)
    have h1 : GetShaderModule st q = (Except.ok r, st) :=
      getShaderModule_hit st q r (by rw [hk] ; exact hlook)
    have h2 := ih (fun p hp => hsame p (List.mem_cons_of_mem q hp))
    simp [runRequests, h1, h2]

/-! ### Claim theorems -/

/-- C5: two `D3D11ShaderKey` values compare equal under `operator==` if and
only if both their stage-kind fields and their digest fields are equal
(field-wise equality on the pair). -/
theorem shaderKey_eq_iff_fields (a b : D3D11ShaderKey) :
    a.keyEq b = true ↔ a.m_type = b.m_type ∧ a.m_hash = b.m_hash := by
  simp [D3D11ShaderKey.keyEq]

/-- C10: for every instantiation of the front object, a `QueryInterface`
request for `IUnknown` — which appears in the match list of both the D3D11
branch and the D3D10 branch — returns the front object itself with `S_OK`
and never the embedded D3D10 adapter, because the D3D11 branch is tested
first and returns immediately on match. -/
theorem queryInterface_iunknown_returns_self (d3d11Interface d3d10Interface : IID) :
    QueryInterface d3d11Interface d3d10Interface IID.IUnknown =
      { ppvObject := QIRef.refSelf, hresult := HResult.S_OK, warned := false } := by
  simp [QueryInterface]

/-- C9: exactly six stage-specific instantiations of `D3D11Shader` exist,
one per stage; for the vertex, geometry and pixel stages the D3D10 interface
parameter is the stage-specific legacy interface, while for the hull, domain
and compute stages it falls back to the generic `ID3D10DeviceChild`. -/
theorem shaderInstantiations_bindings :
    shaderInstantiations.length = 6 ∧
    shaderInstantiations.map (fun p => p.1) =
      [DxbcProgramType.VertexShader, DxbcProgramType.HullShader,
       DxbcProgramType.DomainShader, DxbcProgramType.GeometryShader,
       DxbcProgramType.PixelShader, DxbcProgramType.ComputeShader] ∧
    (∀ p ∈ shaderInstantiations,
      p.2.2 = match p.1 with
        | DxbcProgramType.VertexShader => IID.ID3D10VertexShader
        | DxbcProgramType.GeometryShader => IID.ID3D10GeometryShader
        | DxbcProgramType.PixelShader => IID.ID3D10PixelShader
        | _ => IID.ID3D10DeviceChild) := by
  refine ⟨rfl, rfl, ?_⟩
  decide

/-- C9 witness: the hull-shader instantiation falls back to the generic
legacy device-child interface. -/
theorem shaderInstantiations_bindings_witness :
    (DxbcProgramType.HullShader, IID.ID3D11HullShader, IID.ID3D10DeviceChild).2.2 =
      match (DxbcProgramType.HullShader, IID.ID3D11HullShader, IID.ID3D10DeviceChild).1 with
        | DxbcProgramType.VertexShader => IID.ID3D10VertexShader
        | DxbcProgramType.GeometryShader => IID.ID3D10GeometryShader
        | DxbcProgramType.PixelShader => IID.ID3D10PixelShader
        | _ => IID.ID3D10DeviceChild :=
  shaderInstantiations_bindings.2.2
    (DxbcProgramType.HullShader, IID.ID3D11HullShader, IID.ID3D10DeviceChild) (by decide)

/-- C3: for every front object (any of the six instantiations) and every
requested interface identity, `QueryInterface` returns a reference to the
front object itself with `S_OK` when the identity is `IUnknown`, the
current-generation device-child interface `ID3D11DeviceChild`, or the
instantiation's D3D11 interface; returns a reference to the embedded D3D10
adapter with `S_OK` when it is the legacy device-child interface
`ID3D10DeviceChild` or the instantiation's D3D10 interface; and for any
other identity returns a null reference with `E_NOINTERFACE` and a logged
warning. -/
theorem queryInterface_dispatch (s : DxbcProgramType) (i11 i10 riid : IID)
    (hmem : (s, i11, i10) ∈ shaderInstantiations) :
    ((riid = IID.IUnknown ∨ riid = IID.ID3D11DeviceChild ∨ riid = i11) →
      QueryInterface i11 i10 riid =
        { ppvObject := QIRef.refSelf, hresult := HResult.S_OK, warned := false }) ∧
    ((riid = IID.ID3D10DeviceChild ∨ riid = i10) →
      QueryInterface i11 i10 riid =
        { ppvObject := QIRef.refD3D10, hresult := HResult.S_OK, warned := false }) ∧
    ((riid ≠ IID.IUnknown ∧ riid ≠ IID.ID3D11DeviceChild ∧ riid ≠ i11 ∧
      riid ≠ IID.ID3D10DeviceChild ∧ riid ≠ i10) →
      QueryInterface i11 i10 riid =
        { ppvObject := QIRef.nullRef, hresult := HResult.E_NOINTERFACE, warned := true }) := by
  fin_cases hmem <;>
    refine ⟨?_, ?_, ?_⟩ <;> intro h
  all_goals first
    | (obtain ⟨h1, h2, h3, h4, h5⟩ := h
       simp [QueryInterface, h1, h2, h3, h4, h5])
    | (rcases h with h | h | h <;> subst h <;> rfl)
    | (rcases h with h | h <;> subst h <;> rfl)

/-- C3 witness: on the vertex-shader instantiation, an unrelated identity
yields a null reference, `E_NOINTERFACE` and a logged warning. -/
theorem queryInterface_dispatch_witness :
    QueryInterface IID.ID3D11VertexShader IID.ID3D10VertexShader (IID.otherIID 7) =
      { ppvObject := QIRef.nullRef, hresult := HResult.E_NOINTERFACE, warned := true } :=
  (queryInterface_dispatch DxbcProgramType.VertexShader IID.ID3D11VertexShader
    IID.ID3D10VertexShader (IID.otherIID 7) (by decide)).2.2 (by decide)

/-- C4: the bucket hash (`GetHash`, as used by `D3D11ShaderKeyHash`)
combines both the stage kind and the digest: it is equal across calls for
equal identities, two identities with identical digests but distinct stage
kinds hash to distinct buckets, and two identities with the same stage kind
but distinct digests also hash to distinct buckets. -/
theorem getHash_combines_stage_and_digest (k1 k2 : D3D11ShaderKey) :
    (k1 = k2 → D3D11ShaderKeyHash k1 = D3D11ShaderKeyHash k2) ∧
    (k1.m_hash = k2.m_hash → k1.m_type ≠ k2.m_type →
      D3D11ShaderKeyHash k1 ≠ D3D11ShaderKeyHash k2) ∧
    (k1.m_type = k2.m_type → k1.m_hash ≠ k2.m_hash →
      D3D11ShaderKeyHash k1 ≠ D3D11ShaderKeyHash k2) := by
  refine ⟨fun h => by rw [h], ?_, ?_⟩
  · intro hdig hty hcontra
    apply hty
    apply DxbcProgramType.toNat_inj
    have hd : k1.m_hash.digest = k2.m_hash.digest := by rw [hdig]
    simp only [D3D11ShaderKeyHash, D3D11ShaderKey.GetHash] at hcontra
    omega
  · intro hty hdig hcontra
    apply hdig
    apply Sha1Hash.eq_of_digest_eq
    have ht : k1.m_type.toNat = k2.m_type.toNat := by rw [hty]
    simp only [D3D11ShaderKeyHash, D3D11ShaderKey.GetHash] at hcontra
    omega

/-- C4 witness: identical digests under distinct stages land in distinct
buckets. -/
theorem getHash_combines_stage_and_digest_witness :
    D3D11ShaderKeyHash
        { m_type := DxbcProgramType.VertexShader, m_hash := { digest := 5 } } ≠
      D3D11ShaderKeyHash
        { m_type := DxbcProgramType.PixelShader, m_hash := { digest := 5 } } :=
  (getHash_combines_stage_and_digest
      { m_type := DxbcProgramType.VertexShader, m_hash := { digest := 5 } }
      { m_type := DxbcProgramType.PixelShader, m_hash := { digest := 5 } }).2.1
    rfl (by decide)

/-- C7: `D3D11ShaderKey::GetName` is a pure function of the identity,
producing a string combining a stage tag and the digest rendered as
hexadecimal; equal identities produce an identical name string, and any
difference in digest produces a different name.  The digest bounds hold for
every digest produced by the 160-bit hash. -/
theorem getName_deterministic_digest_injective (k1 k2 : D3D11ShaderKey)
    (h1 : k1.m_hash.digest < 16 ^ 40) (h2 : k2.m_hash.digest < 16 ^ 40) :
    k1.GetName = stageTag k1.m_type ++ "_" ++ toHexFixed 40 k1.m_hash.digest ∧
    (k1 = k2 → k1.GetName = k2.GetName) ∧
    (k1.m_hash ≠ k2.m_hash → k1.GetName ≠ k2.GetName) := by
  refine ⟨rfl, fun h => by rw [h], ?_⟩
  intro hne hcontra
  apply hne
  apply Sha1Hash.eq_of_digest_eq
  apply toHexFixed_inj h1 h2
  have hdata : (stageTag k1.m_type).data ++
      (("_" : String).data ++ (toHexFixed 40 k1.m_hash.digest).data) =
      (stageTag k2.m_type).data ++
      (("_" : String).data ++ (toHexFixed 40 k2.m_hash.digest).data) := by
    have := congrArg String.data hcontra
    simpa [D3D11ShaderKey.GetName, String.data_append] using this
  have htail := List.append_inj_right hdata
    (by rw [stageTag_length, stageTag_length])
  have hhex : (toHexFixed 40 k1.m_hash.digest).data =
      (toHexFixed 40 k2.m_hash.digest).data :=
    List.append_inj_right htail rfl
  exact String.ext hhex

/-- C7 witness: two identities differing only in digest have different
names. -/
theorem getName_deterministic_digest_injective_witness :
    D3D11ShaderKey.GetName
        { m_type := DxbcProgramType.VertexShader, m_hash := { digest := 0 } } ≠
      D3D11ShaderKey.GetName
        { m_type := DxbcProgramType.VertexShader, m_hash := { digest := 1 } } :=
  (getName_deterministic_digest_injective
      { m_type := DxbcProgramType.VertexShader, m_hash := { digest := 0 } }
      { m_type := DxbcProgramType.VertexShader, m_hash := { digest := 1 } }
      (by norm_num) (by norm_num)).2.2 (by decide)

/-- C2: `GetShaderModule` follows exactly these steps, the whole sequence
being one atomic step on the mutex-protected state: it computes the
`D3D11ShaderKey` from the stage and bytecode; if the key is present it
returns a copy of the stored record and leaves the state unchanged; if
absent it invokes the Compiler, inserts the new record under the key, and
returns a copy, recording exactly one Compiler invocation. -/
theorem getShaderModule_steps (st : ShaderCacheState) (req : ShaderRequest) :
    (∀ r, lookupEntry st.m_modules (computeShaderKey req.programType req.bytecode) = some r →
      GetShaderModule st req = (Except.ok r, st)) ∧
    (lookupEntry st.m_modules (computeShaderKey req.programType req.bytecode) = none →
      (req.outcome = CompileOutcome.failure →
        GetShaderModule st req =
          (Except.error (),
           { st with compileLog :=
               st.compileLog ++ [computeShaderKey req.programType req.bytecode] })) ∧
      (∀ b, req.outcome = CompileOutcome.success b →
        GetShaderModule st req =
          (Except.ok (compiledRecord (computeShaderKey req.programType req.bytecode)
              st.nextHandle b),
           { m_modules := (computeShaderKey req.programType req.bytecode,
               compiledRecord (computeShaderKey req.programType req.bytecode)
                 st.nextHandle b) :: st.m_modules
             nextHandle := st.nextHandle + 2
             compileLog :=
               st.compileLog ++ [computeShaderKey req.programType req.bytecode] }))) := by
  refine ⟨fun r hr => getShaderModule_hit st req r hr, fun habs => ⟨?_, ?_⟩⟩
  · intro hout
    exact getShaderModule_miss_failure st req hout habs
  · intro b hout
    exact getShaderModule_miss_success st req b hout habs

/-- C2 witness: a miss with a succeeding Compiler on the fresh cache
compiles, inserts and returns the new record. -/
theorem getShaderModule_steps_witness :
    GetShaderModule ShaderCacheState.init
        { programType := DxbcProgramType.VertexShader, bytecode := [1, 2],
          outcome := CompileOutcome.success false } =
      (Except.ok (compiledRecord (computeShaderKey DxbcProgramType.VertexShader [1, 2]) 0 false),
       { m_modules := [(computeShaderKey DxbcProgramType.VertexShader [1, 2],
           compiledRecord (computeShaderKey DxbcProgramType.VertexShader [1, 2]) 0 false)]
         nextHandle := 2
         compileLog := [computeShaderKey DxbcProgramType.VertexShader [1, 2]] }) :=
  ((getShaderModule_steps ShaderCacheState.init
      { programType := DxbcProgramType.VertexShader, bytecode := [1, 2],
        outcome := CompileOutcome.success false }).2 rfl).2 false rfl

/-- C6: when the Compiler fails during `GetShaderModule`, the failure is
propagated to the caller, the cache map is unchanged (no entry or
placeholder is stored), the Compiler invocation is recorded, and a
subsequent call with the same stage and bytecode re-attempts translation
(invoking the Compiler again) rather than returning a cached failure. -/
theorem compileFailure_not_cached (st : ShaderCacheState) (t : DxbcProgramType)
    (bs : List Nat) (b : Bool)
    (habs : lookupEntry st.m_modules (computeShaderKey t bs) = none) :
    (GetShaderModule st
        { programType := t, bytecode := bs, outcome := CompileOutcome.failure }).1 =
      Except.error () ∧
    (GetShaderModule st
        { programType := t, bytecode := bs, outcome := CompileOutcome.failure }).2.m_modules =
      st.m_modules ∧
    (GetShaderModule st
        { programType := t, bytecode := bs, outcome := CompileOutcome.failure }).2.compileLog =
      st.compileLog ++ [computeShaderKey t bs] ∧
    (GetShaderModule
        (GetShaderModule st
          { programType := t, bytecode := bs, outcome := CompileOutcome.failure }).2
        { programType := t, bytecode := bs, outcome := CompileOutcome.success b }).1 =
      Except.ok (compiledRecord (computeShaderKey t bs) st.nextHandle b) ∧
    (GetShaderModule
        (GetShaderModule st
          { programType := t, bytecode := bs, outcome := CompileOutcome.failure }).2
        { programType := t, bytecode := bs, outcome := CompileOutcome.success b }).2.compileLog =
      st.compileLog ++ [computeShaderKey t bs, computeShaderKey t bs] := by
  have hfail := getShaderModule_miss_failure st
    { programType := t, bytecode := bs, outcome := CompileOutcome.failure } rfl habs
  rw [hfail]
  have hsucc := getShaderModule_miss_success
    { st with compileLog := st.compileLog ++ [computeShaderKey t bs] }
    { programType := t, bytecode := bs, outcome := CompileOutcome.success b } b rfl habs
  rw [hsucc]
  refine ⟨rfl, rfl, rfl, rfl, ?_⟩
  simp

/-- C6 witness: on the fresh cache, a failing call stores nothing and a
retry with the same inputs invokes the Compiler again and succeeds. -/
theorem compileFailure_not_cached_witness :
    (GetShaderModule ShaderCacheState.init
        { programType := DxbcProgramType.VertexShader, bytecode := [3],
          outcome := CompileOutcome.failure }).2.m_modules = [] ∧
    (GetShaderModule
        (GetShaderModule ShaderCacheState.init
          { programType := DxbcProgramType.VertexShader, bytecode := [3],
            outcome := CompileOutcome.failure }).2
        { programType := DxbcProgramType.VertexShader, bytecode := [3],
          outcome := CompileOutcome.success false }).2.compileLog =
      [computeShaderKey DxbcProgramType.VertexShader [3],
       computeShaderKey DxbcProgramType.VertexShader [3]] :=
  ⟨(compileFailure_not_cached ShaderCacheState.init DxbcProgramType.VertexShader
      [3] false rfl).2.1,
   (compileFailure_not_cached ShaderCacheState.init DxbcProgramType.VertexShader
      [3] false rfl).2.2.2.2⟩

/-- C8: a `D3D11CommonShader` is never mutated after construction: the
accessors `GetShader`, `GetIcb` and `GetName` are read-only projections of
the stored fields (returning the shared handles or the absent/empty value),
and no cache operation changes a record already stored in the map. -/
theorem commonShader_immutable (s : D3D11CommonShader) (st : ShaderCacheState)
    (req : ShaderRequest) (k : D3D11ShaderKey) (r : D3D11CommonShader)
    (hstored : lookupEntry st.m_modules k = some r) :
    s.GetShader = s.m_shader ∧ s.GetIcb = s.m_buffer ∧ s.GetName = s.m_name ∧
    lookupEntry (GetShaderModule st req).2.m_modules k = some r := by
  refine ⟨rfl, rfl, rfl, ?_⟩
  cases hlook : lookupEntry st.m_modules (computeShaderKey req.programType req.bytecode) with
  | some r0 =>
    rw [getShaderModule_hit st req r0 hlook]
    exact hstored
  | none =>
    cases hout : req.outcome with
    | failure =>
      rw [getShaderModule_miss_failure st req hout hlook]
      exact hstored
    | success b =>
      rw [getShaderModule_miss_success st req b hout hlook]
      cases hkk : (computeShaderKey req.programType req.bytecode).keyEq k with
      | false =>
        simp only [lookupEntry, hkk, if_neg Bool.false_ne_true]
        exact hstored
      | true =>
        rw [(D3D11ShaderKey.keyEq_iff _ _).mp hkk] at hlook
        rw [hlook] at hstored
        exact Option.noConfusion hstored

/-- C8 witness: a stored record survives a cache call that inserts another
identity, and the accessors project the stored fields. -/
theorem commonShader_immutable_witness :
    D3D11CommonShader.GetShader D3D11CommonShader.empty = none ∧
    D3D11CommonShader.GetIcb D3D11CommonShader.empty = none ∧
    D3D11CommonShader.GetName D3D11CommonShader.empty = "" ∧
    lookupEntry
      (GetShaderModule
        { m_modules := [(computeShaderKey DxbcProgramType.VertexShader [1],
            D3D11CommonShader.empty)]
          nextHandle := 0
          compileLog := [] }
        { programType := DxbcProgramType.PixelShader, bytecode := [2],
          outcome := CompileOutcome.success false }).2.m_modules
      (computeShaderKey DxbcProgramType.VertexShader [1]) =
      some D3D11CommonShader.empty :=
  commonShader_immutable D3D11CommonShader.empty
    { m_modules := [(computeShaderKey DxbcProgramType.VertexShader [1],
        D3D11CommonShader.empty)]
      nextHandle := 0
      compileLog := [] }
    { programType := DxbcProgramType.PixelShader, bytecode := [2],
      outcome := CompileOutcome.success false }
    (computeShaderKey DxbcProgramType.VertexShader [1])
    D3D11CommonShader.empty
    (by simp [lookupEntry, D3D11ShaderKey.keyEq_refl])


/-- C1: for every sequence of `GetShaderModule` calls with the same identity
(same stage and byte-identical bytecode) on a fresh cache, with the Compiler
able to succeed, the Compiler is invoked exactly once for that identity (the
invocation log is exactly one entry) and every returned record's shader
handle refers to the same underlying compiled object.  The cache serializes
all callers behind one mutex, so an arbitrary concurrent execution is
modelled by an arbitrary sequential order of the calls. -/
theorem getShaderModule_compiles_once (t : DxbcProgramType) (bs : List Nat)
    (reqs : List ShaderRequest) (hne : reqs ≠ [])
    (hsame : ∀ q ∈ reqs, q.programType = t ∧ q.bytecode = bs)
    (hok : ∀ q ∈ reqs, q.outcome ≠ CompileOutcome.failure) :
    (runRequests ShaderCacheState.init reqs).2.compileLog = [computeShaderKey t bs] ∧
    ∃ h, ∀ res ∈ (runRequests ShaderCacheState.init reqs).1,
      ∃ r, res = Except.ok r ∧ r.GetShader = some h := by
  cases reqs with
  | nil => exact absurd rfl hne
  | cons q rest =>
    obtain ⟨hqt, hqb⟩ := hsame q (List.mem_cons_self q rest)
    have hkey : computeShaderKey q.programType q.bytecode = computeShaderKey t bs := by
      rw [hqt, hqb]
    obtain ⟨b, hb⟩ : ∃ b, q.outcome = CompileOutcome.success b := by
      cases hq : q.outcome with
      | success b => exact ⟨b, rfl⟩
      | failure => exact absurd hq (hok q (List.mem_cons_self q rest))
    have h1 := getShaderModule_miss_success ShaderCacheState.init q b hb rfl
    rw [hkey] at h1
    have hlook1 : lookupEntry
        ((computeShaderKey t bs,
            compiledRecord (computeShaderKey t bs) ShaderCacheState.init.nextHandle b) ::
          ShaderCacheState.init.m_modules)
        (computeShaderKey t bs) =
        some (compiledRecord (computeShaderKey t bs) ShaderCacheState.init.nextHandle b) := by
      simp [lookupEntry, D3D11ShaderKey.keyEq_refl]
    have hrest := runRequests_all_hits (computeShaderKey t bs)
      (compiledRecord (computeShaderKey t bs) ShaderCacheState.init.nextHandle b)
      { m_modules := (computeShaderKey t bs,
          compiledRecord (computeShaderKey t bs) ShaderCacheState.init.nextHandle b) ::
            ShaderCacheState.init.m_modules
        nextHandle := ShaderCacheState.init.nextHandle + 2
        compileLog := ShaderCacheState.init.compileLog ++ [computeShaderKey t bs] }
      hlook1 rest
      (fun p hp => by
        obtain ⟨h1p, h2p⟩ := hsame p (List.mem_cons_of_mem q hp)
        rw [h1p, h2p])
    constructor
    · have hlog : (runRequests ShaderCacheState.init (q :: rest)).2.compileLog =
          ShaderCacheState.init.compileLog ++ [computeShaderKey t bs] := by
        simp [runRequests, h1, hrest]
      rw [hlog]
      rfl
    · refine ⟨ShaderCacheState.init.nextHandle, ?_⟩
      have hrun1 : (runRequests ShaderCacheState.init (q :: rest)).1 =
          Except.ok (compiledRecord (computeShaderKey t bs)
              ShaderCacheState.init.nextHandle b) ::
            rest.map (fun _ => Except.ok (compiledRecord (computeShaderKey t bs)
              ShaderCacheState.init.nextHandle b)) := by
        simp [runRequests, h1, hrest]
      rw [hrun1]
      intro res hres
      rcases List.mem_cons.mp hres with h | h
      · exact ⟨compiledRecord (computeShaderKey t bs) ShaderCacheState.init.nextHandle b,
          h, rfl⟩
      · obtain ⟨a, _, h⟩ := List.mem_map.mp h
        exact ⟨compiledRecord (computeShaderKey t bs) ShaderCacheState.init.nextHandle b,
          h.symm, rfl⟩

/-- C1 witness: two calls with identical stage and bytecode on the fresh
cache invoke the Compiler once and share one compiled object. -/
theorem getShaderModule_compiles_once_witness :
    (runRequests ShaderCacheState.init
        [{ programType := DxbcProgramType.VertexShader, bytecode := [1, 2],
           outcome := CompileOutcome.success false },
         { programType := DxbcProgramType.VertexShader, bytecode := [1, 2],
           outcome := CompileOutcome.success true }]).2.compileLog =
      [computeShaderKey DxbcProgramType.VertexShader [1, 2]] ∧
    ∃ h, ∀ res ∈ (runRequests ShaderCacheState.init
        [{ programType := DxbcProgramType.VertexShader, bytecode := [1, 2],
           outcome := CompileOutcome.success false },
         { programType := DxbcProgramType.VertexShader, bytecode := [1, 2],
           outcome := CompileOutcome.success true }]).1,
      ∃ r, res = Except.ok r ∧ r.GetShader = some h :=
  getShaderModule_compiles_once DxbcProgramType.VertexShader [1, 2]
    [{ programType := DxbcProgramType.VertexShader, bytecode := [1, 2],
       outcome := CompileOutcome.success false },
     { programType := DxbcProgramType.VertexShader, bytecode := [1, 2],
       outcome := CompileOutcome.success true }]
    (by decide) (by decide) (by decide)
